import Mathlib

/-!
Shallow embedding of `src/weather_tools copy.py`: an async weather client for
the Data.gov.my API consisting of a fetcher (`get_malaysia_weather_forecast`)
and a formatter (`format_weather_forecast`).

The network is modelled by an abstract `HttpOutcome` describing what the single
`httpx` GET would produce; both Python functions become pure Lean functions of
that outcome.  Python exceptions that escape a function are modelled with
`Except`; the fetcher's swallow-and-log handler is modelled by a total function
returning `Option` plus the list of printed diagnostic lines.

Modelling notes, all irrelevant to the claims under study:
  * strings are treated at ASCII fidelity (`str.lower`/`str.strip`/`str.title`
    are implemented with their documented ASCII behaviour);
  * JSON numbers are modelled as integers (the payloads in play use integers);
    `str()` of nested containers follows Python's repr shape with string
    escaping elided;
  * the timeout is carried as a natural number of seconds (the source default
    is the float `15.0`).
-/

namespace WeatherTools

/-- ASCII whitespace stripped by Python `str.strip()` with no argument. -/
def isPySpace (c : Char) : Bool :=
  c = ' ' || c = '\t' || c = '\n' || c = '\r' || c = Char.ofNat 11 || c = Char.ofNat 12

/-- Python `str.lower()` (ASCII). -/
def pyLower (s : String) : String :=
  String.mk (s.data.map Char.toLower)

/-- Python `str.strip()` (ASCII whitespace, both ends). -/
def pyStrip (s : String) : String :=
  String.mk (((s.data.dropWhile isPySpace).reverse.dropWhile isPySpace).reverse)

/-- Core of Python `str.title()`: a cased character starting a word (previous
character not cased) is uppercased, any other cased character is lowercased,
uncased characters pass through.  The flag records whether the previous
character was cased. -/
def pyTitleAux : List Char → Bool → List Char
  | [], _ => []
  | c :: cs, prevCased =>
    if c.isAlpha then
      (if prevCased then c.toLower else c.toUpper) :: pyTitleAux cs true
    else
      c :: pyTitleAux cs false

/-- Python `str.title()` (ASCII). -/
def pyTitle (s : String) : String :=
  String.mk (pyTitleAux s.data false)

/-- JSON values as produced by `response.json()`.  Numbers are modelled as
integers. -/
inductive JVal where
  | null : JVal
  | bool (b : Bool) : JVal
  | int (n : Int) : JVal
  | str (s : String) : JVal
  | arr (xs : List JVal) : JVal
  | obj (fields : List (String × JVal)) : JVal

/-- Python truthiness of a JSON value (`bool(v)`). -/
def pyTruthy : JVal → Bool
  | .null => false
  | .bool b => b
  | .int n => n != 0
  | .str s => !(s.data.isEmpty)
  | .arr xs => !xs.isEmpty
  | .obj fields => !fields.isEmpty

/-- An ASCII single-quote character, written by code point. -/
def sq : String := String.mk [Char.ofNat 39]

/-- Python `repr()` of a JSON value (string escaping elided). -/
def pyRepr : JVal → String
  | .null => "None"
  | .bool b => if b then "True" else "False"
  | .int n => toString n
  | .str s => sq ++ s ++ sq
  | .arr xs =>
    "[" ++ String.intercalate ", " (xs.attach.map (fun x => pyRepr x.1)) ++ "]"
  | .obj fields =>
    String.mk [Char.ofNat 123] ++
      String.intercalate ", "
        (fields.attach.map (fun kv => sq ++ kv.1.1 ++ sq ++ ": " ++ pyRepr kv.1.2)) ++
      String.mk [Char.ofNat 125]
decreasing_by
  · have := List.sizeOf_lt_of_mem x.2
    simp only [JVal.arr.sizeOf_spec]
    omega
  · have h1 := List.sizeOf_lt_of_mem kv.2
    have h2 : sizeOf kv.1.2 < sizeOf kv.1 := by
      obtain ⟨k, v⟩ := kv.1
      simp only [Prod.mk.sizeOf_spec]
      omega
    simp only [JVal.obj.sizeOf_spec]
    omega

/-- Python `str()` of a JSON value, as interpolated by an f-string: the
string itself for a string, the value's repr otherwise (spelled out for the
scalar shapes, where `str` and `repr` agree). -/
def pyStr : JVal → String
  | .str s => s
  | .null => "None"
  | .bool b => if b then "True" else "False"
  | .int n => toString n
  | .arr xs => pyRepr (.arr xs)
  | .obj fields => pyRepr (.obj fields)

/-- Numeric value of an ASCII digit. -/
def digitVal (c : Char) : Nat := c.toNat - 48

/-- `%Y` in `_strptime`: exactly four digits. -/
def parseYear4 : List Char → Option (Nat × List Char)
  | a :: b :: c :: d :: rest =>
    if a.isDigit && b.isDigit && c.isDigit && d.isDigit then
      some (digitVal a * 1000 + digitVal b * 100 + digitVal c * 10 + digitVal d, rest)
    else none
  | _ => none

/-- `%m` in `_strptime`: the regex `1[0-2]|0[1-9]|[1-9]`.  When a valid
two-digit form is present it is taken; otherwise a single nonzero digit is
taken (a failing two-digit prefix of two digits cannot be rescued by the
one-digit alternative, because the following character of the format is a
literal that no digit matches). -/
def parseMonthTok : List Char → Option (Nat × List Char)
  | [] => none
  | a :: rest =>
    if !a.isDigit then none
    else
      match rest with
      | b :: rest2 =>
        if b.isDigit then
          if (a = '1' && digitVal b ≤ 2) || (a = '0' && 1 ≤ digitVal b) then
            some (digitVal a * 10 + digitVal b, rest2)
          else if a != '0' then some (digitVal a, b :: rest2)
          else none
        else if a != '0' then some (digitVal a, rest) else none
      | [] => if a != '0' then some (digitVal a, []) else none

/-- `%d` in `_strptime`: the regex `3[01]|[12]\d|0[1-9]|[1-9]`. -/
def parseDayTok : List Char → Option (Nat × List Char)
  | [] => none
  | a :: rest =>
    if !a.isDigit then none
    else
      match rest with
      | b :: rest2 =>
        if b.isDigit then
          if (a = '3' && digitVal b ≤ 1) || a = '1' || a = '2' ||
              (a = '0' && 1 ≤ digitVal b) then
            some (digitVal a * 10 + digitVal b, rest2)
          else if a != '0' then some (digitVal a, b :: rest2)
          else none
        else if a != '0' then some (digitVal a, rest) else none
      | [] => if a != '0' then some (digitVal a, []) else none

/-- Gregorian leap year, as in Python's `calendar`/`datetime`. -/
def isLeapYear (y : Nat) : Bool :=
  (y % 4 = 0 && y % 100 != 0) || y % 400 = 0

/-- Days in a month (0 for a month outside 1..12, which `datetime` rejects). -/
def daysInMonth (y m : Nat) : Nat :=
  match m with
  | 1 => 31
  | 2 => if isLeapYear y then 29 else 28
  | 3 => 31
  | 4 => 30
  | 5 => 31
  | 6 => 30
  | 7 => 31
  | 8 => 31
  | 9 => 30
  | 10 => 31
  | 11 => 30
  | 12 => 31
  | _ => 0

/-- `datetime.strptime(s, "%Y-%m-%d")`: four-digit year, dash, month token,
dash, day token, end of string, then the `datetime` constructor's range checks
(MINYEAR 1, MAXYEAR 9999, month 1..12, day 1..days-in-month).  `none` models
the `ValueError` Python raises. -/
def strptime_Ymd (s : String) : Option (Nat × Nat × Nat) :=
  match parseYear4 s.data with
  | none => none
  | some (y, r1) =>
    match r1 with
    | '-' :: r2 =>
      match parseMonthTok r2 with
      | none => none
      | some (m, r3) =>
        match r3 with
        | '-' :: r4 =>
          match parseDayTok r4 with
          | none => none
          | some (d, r5) =>
            if r5.isEmpty then
              if 1 ≤ y && y ≤ 9999 && 1 ≤ m && m ≤ 12 && 1 ≤ d && d ≤ daysInMonth y m
              then some (y, m, d)
              else none
            else none
        | _ => none
    | _ => none

/-- The decimal digit of a given rank. -/
def decDigit (n : Nat) : Char := Char.ofNat (48 + n % 10)

/-- Zero-padded two-digit field (`%d`; days are at most 31). -/
def pad2 (n : Nat) : String :=
  String.mk [decDigit (n / 10), decDigit n]

/-- Zero-padded four-digit field (`%Y` as documented by CPython; some libc
implementations do not pad years below 1000, a divergence no claim reaches
for contemporary dates).  `strptime` years are at most 9999. -/
def pad4 (n : Nat) : String :=
  String.mk [decDigit (n / 1000), decDigit (n / 100), decDigit (n / 10), decDigit n]

/-- `%b`: abbreviated month name in the C locale. -/
def monthAbbr (m : Nat) : String :=
  match m with
  | 1 => "Jan"
  | 2 => "Feb"
  | 3 => "Mar"
  | 4 => "Apr"
  | 5 => "May"
  | 6 => "Jun"
  | 7 => "Jul"
  | 8 => "Aug"
  | 9 => "Sep"
  | 10 => "Oct"
  | 11 => "Nov"
  | 12 => "Dec"
  | _ => ""

/-- `date_obj.strftime('%d %b %Y')`. -/
def strftime_dbY (y m d : Nat) : String :=
  pad2 d ++ " " ++ monthAbbr m ++ " " ++ pad4 y

/-- The HTTP GET the fetcher issues: URL, query parameters, headers, and the
timeout bound (in whole seconds). -/
structure HttpRequest where
  url : String
  params : List (String × String)
  headers : List (String × String)
  timeout : Nat
deriving DecidableEq

/-- What the single `httpx` GET produces, as decided by the environment:
the request raises (network error), it times out, or a response arrives with a
status code, a textual description for the `HTTPStatusError` that
`raise_for_status` would raise, and the result of parsing the body as JSON
(`Except.error` carries the text of the `json.JSONDecodeError`). -/
inductive HttpOutcome where
  | requestError (msg : String)
  | timedOut (msg : String)
  | response (status : Nat) (statusMsg : String) (body : Except String JVal)

/-- `httpx.Response.is_success`: status in 2xx; `raise_for_status` raises for
anything else. -/
def is2xx (status : Nat) : Bool :=
  decide (200 ≤ status) && decide (status < 300)

/-- The request `client.get(base_url, params=..., headers=..., timeout=...)`
builds from the fetcher's arguments. -/
def build_request (location date : String) (timeout : Nat) : HttpRequest :=
  { url := "https://api.data.gov.my/weather"
    params := [("location", pyStrip (pyLower location)),
               ("date", date),
               ("category", "forecast")]
    headers := [("User-Agent", "MalaysiaWeatherForecast/1.0"),
                ("Accept", "application/json")]
    timeout := timeout }

/-- Observable behaviour of one fetcher call: the returned value, the lines
printed to stdout, and the HTTP requests issued. -/
structure FetchResult where
  result : Option JVal
  printed : List String
  requests : List HttpRequest

/-- `get_malaysia_weather_forecast(location, date, timeout)`.  It issues the
one GET; on a 2xx response with a parseable JSON body it returns that body,
and on any exception (request error, timeout, `raise_for_status`, JSON decode)
the `except` clause prints `f"Weather API error: {str(e)}"` and returns
`None`.  Totality of this function models that no exception escapes. -/
def get_malaysia_weather_forecast (outcome : HttpOutcome)
    (location date : String) (timeout : Nat) : FetchResult :=
  let req := build_request location date timeout
  match outcome with
  | .requestError msg => ⟨none, ["Weather API error: " ++ msg], [req]⟩
  | .timedOut msg => ⟨none, ["Weather API error: " ++ msg], [req]⟩
  | .response status statusMsg body =>
    if is2xx status then
      match body with
      | .ok j => ⟨some j, [], [req]⟩
      | .error jsonMsg => ⟨none, ["Weather API error: " ++ jsonMsg], [req]⟩
    else
      ⟨none, ["Weather API error: " ++ statusMsg], [req]⟩

/-- The declared default of the fetcher's `timeout` parameter (`15.0`). -/
def defaultTimeout : Nat := 15

/-- Python exceptions that can escape `format_weather_forecast` (messages not
modelled). -/
inductive PyError where
  | valueError
  | attributeError
  | typeError
  | indexError
  | keyError
deriving DecidableEq

/-- Python `v.get(k)` on the formatter's fetch result: `None` default when the
key is absent, `AttributeError` when `v` is not a dict. -/
def pyDictGet (v : JVal) (k : String) : Except PyError JVal :=
  match v with
  | .obj fields => .ok ((List.lookup k fields).getD .null)
  | _ => .error .attributeError

/-- Python `v[0]`: first element of a list, first character of a string,
`KeyError` on a dict without key `0`, `TypeError` otherwise. -/
def pySubscript0 : JVal → Except PyError JVal
  | .arr [] => .error .indexError
  | .arr (x :: _) => .ok x
  | .str s =>
    match s.data with
    | [] => .error .indexError
    | c :: _ => .ok (.str (String.mk [c]))
  | .obj _ => .error .keyError
  | _ => .error .typeError

/-- `forecast.get(key, default)` for a dict record. -/
def recGetD (fields : List (String × JVal)) (k : String) (dflt : JVal) : JVal :=
  (List.lookup k fields).getD dflt

/-- The fallback string of the formatter's early return. -/
def fallback_message (location date : String) : String :=
  "No forecast available for " ++ pyTitle location ++ " on " ++ date

/-- The success-path f-string: title line, five field lines, blank line,
attribution. -/
def forecast_report (location : String) (y m d : Nat)
    (fields : List (String × JVal)) : String :=
  pyTitle location ++ " Weather Forecast (" ++ strftime_dbY y m d ++ "):\n" ++
  "Condition: " ++ pyStr (recGetD fields "weather_condition" (.str "N/A")) ++ "\n" ++
  "Temperature: " ++ pyStr (recGetD fields "temperature_min" (.str "N/A")) ++ "°C - " ++
    pyStr (recGetD fields "temperature_max" (.str "N/A")) ++ "°C\n" ++
  "Humidity: " ++ pyStr (recGetD fields "humidity_min" (.str "N/A")) ++ "% - " ++
    pyStr (recGetD fields "humidity_max" (.str "N/A")) ++ "%\n" ++
  "Wind: " ++ pyStr (recGetD fields "wind_speed" (.str "N/A")) ++ " km/h " ++
    pyStr (recGetD fields "wind_direction" (.str "")) ++ "\n" ++
  "Rain Probability: " ++ pyStr (recGetD fields "rain_probability" (.str "N/A")) ++ "%\n" ++
  "\nSource: Data.gov.my Weather API"

/-- The body of `format_weather_forecast` after the awaited fetch, applied to
the fetch result `data`.  Mirrors the source line by line: the
`not data or not data.get("data")` guard, `forecast = data["data"][0]`,
`datetime.strptime(date, "%Y-%m-%d")` (whose `ValueError` propagates), then
the f-string whose `forecast.get` calls need `forecast` to be a dict. -/
def render_forecast (fetched : Option JVal) (location date : String) :
    Except PyError String :=
  let truthy := match fetched with
    | none => false
    | some v => pyTruthy v
  if !truthy then .ok (fallback_message location date)
  else
    match fetched with
    | none => .ok (fallback_message location date)
    | some data =>
      match pyDictGet data "data" with
      | .error e => .error e
      | .ok dataField =>
        if !pyTruthy dataField then .ok (fallback_message location date)
        else
          match pySubscript0 dataField with
          | .error e => .error e
          | .ok forecast =>
            match strptime_Ymd date with
            | none => .error .valueError
            | some (y, m, d) =>
              match forecast with
              | .obj fields => .ok (forecast_report location y m d fields)
              | _ => .error .attributeError

/-- Observable behaviour of one formatter call. -/
structure FormatRun where
  output : Except PyError String
  printed : List String
  requests : List HttpRequest

/-- `format_weather_forecast(location, date)`: awaits the fetcher (with its
default timeout) and renders the result. -/
def format_weather_forecast (outcome : HttpOutcome) (location date : String) :
    FormatRun :=
  let fr := get_malaysia_weather_forecast outcome location date defaultTimeout
  ⟨render_forecast fr.result location date, fr.printed, fr.requests⟩

/-- Whether the environment's outcome makes the fetcher's `try` block raise. -/
def fetch_failed : HttpOutcome → Bool
  | .requestError _ => true
  | .timedOut _ => true
  | .response status _ body =>
    !is2xx status ||
      (match body with
       | .ok _ => false
       | .error _ => true)

/-- `str(e)` for the exception a failing outcome raises: the request error or
timeout message, the `HTTPStatusError` text for a non-2xx status, or the JSON
decode error text. -/
def failure_description : HttpOutcome → String
  | .requestError msg => msg
  | .timedOut msg => msg
  | .response status statusMsg body =>
    if is2xx status then
      match body with
      | .ok _ => ""
      | .error jsonMsg => jsonMsg
    else statusMsg

/-! Spec-side definitions, written from the specification's words, to be
compared with the embedded code above. -/

/-- Spec side: a record field rendered for display, `"N/A"` when the key is
absent from the record. -/
def spec_field_or_NA (fields : List (String × JVal)) (k : String) : String :=
  match List.lookup k fields with
  | some v => pyStr v
  | none => "N/A"

/-- Spec side: a record field rendered for display, empty when the key is
absent from the record (the `wind_direction` convention). -/
def spec_field_or_blank (fields : List (String × JVal)) (k : String) : String :=
  match List.lookup k fields with
  | some v => pyStr v
  | none => ""

/-- Spec side: index-based description of title-casing — every character is
kept in place; a letter is uppercased when the preceding character (or the
flag, at position 0) is not a letter, and lowercased otherwise; non-letters
pass through untouched. -/
def title_spec_from (cs : List Char) (prev : Bool) : List Char :=
  (List.range cs.length).map fun i =>
    let c := cs.getD i ' '
    let prevAlpha := if i = 0 then prev else (cs.getD (i - 1) ' ').isAlpha
    if c.isAlpha then (if prevAlpha then c.toLower else c.toUpper) else c

/-- The forecast record of the spec's end-to-end example. -/
def penangRecord : List (String × JVal) :=
  [("weather_condition", JVal.str "Sunny"),
   ("temperature_min", JVal.int 24),
   ("temperature_max", JVal.int 32),
   ("humidity_min", JVal.int 60),
   ("humidity_max", JVal.int 85),
   ("wind_speed", JVal.int 10),
   ("wind_direction", JVal.str "NE"),
   ("rain_probability", JVal.int 20)]

/-- The mocked API body of the spec's end-to-end example. -/
def penangBody : JVal :=
  JVal.obj [("data", JVal.arr [JVal.obj penangRecord])]

/-! Helper lemmas. -/

theorem spec_field_or_NA_eq (fields : List (String × JVal)) (k : String) :
    spec_field_or_NA fields k = pyStr (recGetD fields k (.str "N/A")) := by
  cases h : List.lookup k fields <;> simp [spec_field_or_NA, recGetD, h, pyStr]

theorem spec_field_or_blank_eq (fields : List (String × JVal)) (k : String) :
    spec_field_or_blank fields k = pyStr (recGetD fields k (.str "")) := by
  cases h : List.lookup k fields <;> simp [spec_field_or_blank, recGetD, h, pyStr]

theorem lookup_ne_nil {k : String} {fields : List (String × JVal)} {v : JVal}
    (h : List.lookup k fields = some v) : fields.isEmpty = false := by
  cases fields with
  | nil => simp [List.lookup] at h
  | cons a l => rfl

theorem format_output_eq (outcome : HttpOutcome) (location date : String) :
    (format_weather_forecast outcome location date).output =
      render_forecast
        (get_malaysia_weather_forecast outcome location date defaultTimeout).result
        location date := rfl

/-- Unfolding of the formatter's success branch once the fetch result is a
dict whose `data` key holds a non-empty list. -/
theorem render_forecast_of_data
    (topFields : List (String × JVal)) (first : JVal) (rest : List JVal)
    (location date : String)
    (hdata : List.lookup "data" topFields = some (JVal.arr (first :: rest))) :
    render_forecast (some (JVal.obj topFields)) location date =
      (match strptime_Ymd date with
       | none => .error .valueError
       | some (y, m, d) =>
         match first with
         | .obj fields => .ok (forecast_report location y m d fields)
         | _ => .error .attributeError) := by
  have hne := lookup_ne_nil hdata
  simp only [render_forecast, pyTruthy, hne, Bool.not_false, Bool.false_eq_true,
    if_false, pyDictGet, hdata, Option.getD_some, pySubscript0]
  rcases strptime_Ymd date with _ | ⟨y, m, d⟩
  · rfl
  · cases first <;> rfl

/-- Unfolding of the formatter's fallback branch for each of the three
"no usable data" shapes. -/
theorem render_forecast_fallback
    (fetched : Option JVal) (location date : String)
    (h : fetched = none ∨
      ∃ topFields, fetched = some (JVal.obj topFields) ∧
        (List.lookup "data" topFields = none ∨
         List.lookup "data" topFields = some (JVal.arr []))) :
    render_forecast fetched location date = .ok (fallback_message location date) := by
  rcases h with h | ⟨topFields, rfl, hdata⟩
  · subst h
    rfl
  · by_cases hne : topFields.isEmpty
    · simp only [render_forecast, pyTruthy, hne, Bool.not_true, Bool.true_and]
      rfl
    · rcases hdata with hdata | hdata <;>
        simp [render_forecast, pyTruthy, hne, pyDictGet, hdata]

theorem daysInMonth_le (y m : Nat) : daysInMonth y m ≤ 31 := by
  unfold daysInMonth
  split <;> (try split) <;> omega

theorem strptime_Ymd_bounds {s : String} {y m d : Nat}
    (h : strptime_Ymd s = some (y, m, d)) :
    1 ≤ y ∧ y ≤ 9999 ∧ 1 ≤ m ∧ m ≤ 12 ∧ 1 ≤ d ∧ d ≤ 31 := by
  unfold strptime_Ymd at h
  repeat' split at h
  all_goals simp_all
  have := daysInMonth_le y m
  omega

/-- The success report split into the title-line prefix and the rest. -/
theorem forecast_report_split (location : String) (y m d : Nat)
    (fields : List (String × JVal)) :
    forecast_report location y m d fields =
      (pyTitle location ++ " Weather Forecast (" ++
        (pad2 d ++ " " ++ monthAbbr m ++ " " ++ pad4 y) ++ "):") ++
      ("\n" ++
       ("Condition: " ++ pyStr (recGetD fields "weather_condition" (.str "N/A")) ++ "\n" ++
        "Temperature: " ++ pyStr (recGetD fields "temperature_min" (.str "N/A")) ++ "°C - " ++
          pyStr (recGetD fields "temperature_max" (.str "N/A")) ++ "°C\n" ++
        "Humidity: " ++ pyStr (recGetD fields "humidity_min" (.str "N/A")) ++ "% - " ++
          pyStr (recGetD fields "humidity_max" (.str "N/A")) ++ "%\n" ++
        "Wind: " ++ pyStr (recGetD fields "wind_speed" (.str "N/A")) ++ " km/h " ++
          pyStr (recGetD fields "wind_direction" (.str "")) ++ "\n" ++
        "Rain Probability: " ++ pyStr (recGetD fields "rain_probability" (.str "N/A")) ++ "%\n" ++
        "\nSource: Data.gov.my Weather API")) := by
  apply String.ext
  simp only [forecast_report, strftime_dbY, String.data_append, List.append_assoc,
    List.cons_append, List.nil_append]

/-- The recursive title-casing agrees with its index-based description. -/
theorem pyTitleAux_eq_spec (cs : List Char) (prev : Bool) :
    pyTitleAux cs prev = title_spec_from cs prev := by
  induction cs generalizing prev with
  | nil => rfl
  | cons c cs ih =>
    unfold title_spec_from
    rw [List.length_cons, List.range_succ_eq_map, List.map_cons, List.map_map]
    cases hca : c.isAlpha with
    | false =>
      rw [pyTitleAux]
      simp only [hca, Bool.false_eq_true, if_false]
      rw [ih]
      congr 1
      · simp [hca]
      · unfold title_spec_from
        apply List.map_congr_left
        intro i _
        cases i with
        | zero => simp [hca]
        | succ j => simp
    | true =>
      rw [pyTitleAux]
      simp only [hca, if_true]
      rw [ih]
      congr 1
      · simp [hca]
      · unfold title_spec_from
        apply List.map_congr_left
        intro i _
        cases i with
        | zero => simp [hca]
        | succ j => simp

theorem head_dropWhile_not {p : Char → Bool} :
    ∀ (l : List Char) (c : Char), (l.dropWhile p).head? = some c → p c = false := by
  intro l
  induction l with
  | nil => intro c h; simp [List.dropWhile] at h
  | cons a l ih =>
    intro c h
    rw [List.dropWhile_cons] at h
    by_cases hp : p a
    · rw [if_pos hp] at h
      exact ih c h
    · rw [if_neg hp] at h
      simp only [List.head?_cons, Option.some.injEq] at h
      subst h
      exact Bool.not_eq_true _ ▸ hp

theorem mem_of_mem_pyStrip {c : Char} {s : String}
    (h : c ∈ (pyStrip s).data) : c ∈ s.data := by
  unfold pyStrip at h
  simp only [List.mem_reverse] at h
  have h1 := (List.dropWhile_sublist isPySpace).mem h
  rw [List.mem_reverse] at h1
  exact (List.dropWhile_sublist isPySpace).mem h1

theorem char_isUpper_iff (c : Char) :
    c.isUpper = (decide (65 ≤ c.toNat) && decide (c.toNat ≤ 90)) := by
  simp only [Char.isUpper, Char.toNat, ge_iff_le]
  congr 1

theorem charOfNat_toNat {n : Nat} (h : n ≤ 122) : (Char.ofNat n).toNat = n := by
  have hv : n.isValidChar := Or.inl (by omega)
  unfold Char.ofNat
  rw [dif_pos hv]
  unfold Char.ofNatAux Char.toNat
  simp [UInt32.toNat, BitVec.toNat_ofNatLt]

theorem toLower_not_upper (c : Char) : (Char.toLower c).isUpper = false := by
  unfold Char.toLower
  by_cases h : c.toNat ≥ 65 ∧ c.toNat ≤ 90
  · simp only [if_pos h, char_isUpper_iff]
    rw [charOfNat_toNat (by omega)]
    simp only [Bool.and_eq_false_iff, decide_eq_false_iff_not, not_le]
    right
    omega
  · simp only [if_neg h, char_isUpper_iff]
    simp only [Bool.and_eq_false_iff, decide_eq_false_iff_not, not_le]
    omega

theorem getLast_dropWhile {p : Char → Bool} (l : List Char)
    (h : l.dropWhile p ≠ []) : (l.dropWhile p).getLast? = l.getLast? := by
  induction l with
  | nil => simp [List.dropWhile] at h
  | cons a l ih =>
    rw [List.dropWhile_cons]
    by_cases hp : p a
    · rw [List.dropWhile_cons, if_pos hp] at h
      rw [if_pos hp, ih h]
      cases l with
      | nil => simp [List.dropWhile] at h
      | cons b l2 => rw [List.getLast?_cons_cons]
    · rw [if_neg hp]

theorem pyStrip_head_not_space {s : String} {c : Char}
    (h : (pyStrip s).data.head? = some c) : isPySpace c = false := by
  unfold pyStrip at h
  rw [List.head?_reverse] at h
  have hB : (s.data.dropWhile isPySpace).reverse.dropWhile isPySpace ≠ [] := by
    intro he
    rw [he] at h
    exact Option.noConfusion h
  rw [getLast_dropWhile _ hB, List.getLast?_reverse] at h
  exact head_dropWhile_not _ c h

theorem pyStrip_getLast_not_space {s : String} {c : Char}
    (h : (pyStrip s).data.getLast? = some c) : isPySpace c = false := by
  unfold pyStrip at h
  rw [List.getLast?_reverse] at h
  exact head_dropWhile_not _ c h

/-- Joining eight lines with newlines, written out. -/
theorem intercalate_eight (a b c d e f g h : String) :
    String.intercalate "\n" [a, b, c, d, e, f, g, h] =
      a ++ "\n" ++ b ++ "\n" ++ c ++ "\n" ++ d ++ "\n" ++ e ++ "\n" ++ f ++
        "\n" ++ g ++ "\n" ++ h := by
  simp [String.intercalate, String.intercalate.go, String.append_assoc]

/-- C1: whenever the fetch returns a mapping whose `data` sequence is
non-empty (with a record as its first element) and the date parses,
`format_weather_forecast` returns exactly the fixed report built from that
first record: title line, the five field lines, a blank line and the
attribution line, each field rendering as "N/A" when its key is absent
(`wind_direction` as the empty string). -/
theorem c1_success_report_layout
    (outcome : HttpOutcome) (location date : String)
    (topFields fields : List (String × JVal)) (rest : List JVal) (y m d : Nat)
    (hfetch : (get_malaysia_weather_forecast outcome location date defaultTimeout).result
      = some (JVal.obj topFields))
    (hdata : List.lookup "data" topFields = some (JVal.arr (JVal.obj fields :: rest)))
    (hdate : strptime_Ymd date = some (y, m, d)) :
    (format_weather_forecast outcome location date).output =
      Except.ok (String.intercalate "\n"
        [pyTitle location ++ " Weather Forecast (" ++ strftime_dbY y m d ++ "):",
         "Condition: " ++ spec_field_or_NA fields "weather_condition",
         "Temperature: " ++ spec_field_or_NA fields "temperature_min" ++ "°C - " ++
           spec_field_or_NA fields "temperature_max" ++ "°C",
         "Humidity: " ++ spec_field_or_NA fields "humidity_min" ++ "% - " ++
           spec_field_or_NA fields "humidity_max" ++ "%",
         "Wind: " ++ spec_field_or_NA fields "wind_speed" ++ " km/h " ++
           spec_field_or_blank fields "wind_direction",
         "Rain Probability: " ++ spec_field_or_NA fields "rain_probability" ++ "%",
         "",
         "Source: Data.gov.my Weather API"]) := by
  rw [format_output_eq, hfetch, render_forecast_of_data _ _ _ _ _ hdata, hdate]
  show Except.ok (forecast_report location y m d fields) = _
  rw [intercalate_eight]
  refine congrArg Except.ok ?_
  apply String.ext
  simp only [spec_field_or_NA_eq, spec_field_or_blank_eq, forecast_report,
    strftime_dbY, String.data_append, List.append_assoc, List.cons_append,
    List.nil_append]

/-- C1 witness: the spec's end-to-end Penang example. -/
theorem c1_success_report_layout_witness :
    (format_weather_forecast
      (HttpOutcome.response 200 "OK" (Except.ok penangBody))
      "Penang" "2025-08-06").output =
      Except.ok ("Penang Weather Forecast (06 Aug 2025):\nCondition: Sunny\nTemperature: 24°C - 32°C\nHumidity: 60% - 85%\nWind: 10 km/h NE\nRain Probability: 20%\n\nSource: Data.gov.my Weather API") := by
  have h := c1_success_report_layout
    (HttpOutcome.response 200 "OK" (Except.ok penangBody)) "Penang" "2025-08-06"
    [("data", JVal.arr [JVal.obj penangRecord])] penangRecord [] 2025 8 6
    rfl rfl rfl
  exact h.trans (by rfl)

/-- C2: an absent fetch result, or a mapping whose `data` is absent or the
empty list, makes `format_weather_forecast` return exactly the fallback
string, with the caller's original location title-cased and the date
verbatim. -/
theorem c2_fallback_message (outcome : HttpOutcome) (location date : String)
    (h : (get_malaysia_weather_forecast outcome location date defaultTimeout).result = none ∨
      ∃ topFields,
        (get_malaysia_weather_forecast outcome location date defaultTimeout).result
          = some (JVal.obj topFields) ∧
        (List.lookup "data" topFields = none ∨
         List.lookup "data" topFields = some (JVal.arr []))) :
    (format_weather_forecast outcome location date).output =
      Except.ok ("No forecast available for " ++ pyTitle location ++ " on " ++ date) := by
  rw [format_output_eq, render_forecast_fallback _ location date h]
  rfl

/-- C2 witness: a simulated network failure. -/
theorem c2_fallback_message_witness :
    (format_weather_forecast (HttpOutcome.requestError "Connection refused")
      "bayan lepas" "2025-08-06").output =
      Except.ok "No forecast available for Bayan Lepas on 2025-08-06" := by
  have h := c2_fallback_message (HttpOutcome.requestError "Connection refused")
    "bayan lepas" "2025-08-06" (Or.inl rfl)
  exact h.trans (by rfl)

/-- C3 counterexample: with a malformed date and a failing fetch,
`format_weather_forecast` does not fail — it silently returns the fallback
string, because the fallback branch runs before the date is ever parsed. -/
theorem c3_counterexample_fallback_on_bad_date :
    (format_weather_forecast (HttpOutcome.requestError "Connection refused")
      "penang" "06-08-2025").output =
      Except.ok "No forecast available for Penang on 06-08-2025" := by rfl

/-- C3 (amended): a date not in YYYY-MM-DD form is fatal — the ValueError of
date parsing propagates — whenever the fetch produced a mapping with a
non-empty `data` sequence; with an absent or empty fetch result the fallback
string is returned without the date being parsed. -/
theorem c3_amended_fatal_when_data
    (outcome : HttpOutcome) (location date : String)
    (topFields : List (String × JVal)) (first : JVal) (rest : List JVal)
    (hfetch : (get_malaysia_weather_forecast outcome location date defaultTimeout).result
      = some (JVal.obj topFields))
    (hdata : List.lookup "data" topFields = some (JVal.arr (first :: rest)))
    (hdate : strptime_Ymd date = none) :
    (format_weather_forecast outcome location date).output =
      Except.error PyError.valueError := by
  rw [format_output_eq, hfetch, render_forecast_of_data _ _ _ _ _ hdata, hdate]

/-- C3 witness: a successful fetch plus the malformed date from the spec. -/
theorem c3_amended_fatal_when_data_witness :
    (format_weather_forecast (HttpOutcome.response 200 "OK"
      (Except.ok (JVal.obj [("data", JVal.arr [JVal.obj []])])))
      "penang" "06-08-2025").output = Except.error PyError.valueError :=
  c3_amended_fatal_when_data
    (HttpOutcome.response 200 "OK" (Except.ok (JVal.obj [("data", JVal.arr [JVal.obj []])])))
    "penang" "06-08-2025" [("data", JVal.arr [JVal.obj []])] (JVal.obj []) []
    rfl rfl rfl

/-- C4: every failing outcome — request error, timeout, non-2xx status,
malformed JSON body — makes the fetcher return `None` (no exception escapes:
the function is total) and print the failure's textual description. -/
theorem c4_fetch_failure_swallowed (outcome : HttpOutcome)
    (location date : String) (timeout : Nat)
    (hfail : fetch_failed outcome = true) :
    (get_malaysia_weather_forecast outcome location date timeout).result = none ∧
    (get_malaysia_weather_forecast outcome location date timeout).printed =
      ["Weather API error: " ++ failure_description outcome] := by
  cases outcome with
  | requestError msg => exact ⟨rfl, rfl⟩
  | timedOut msg => exact ⟨rfl, rfl⟩
  | response status statusMsg body =>
    cases h2 : is2xx status with
    | true =>
      cases body with
      | ok j => simp [fetch_failed, h2] at hfail
      | error jsonMsg =>
        simp [get_malaysia_weather_forecast, failure_description, h2]
    | false =>
      cases body <;>
        simp [get_malaysia_weather_forecast, failure_description, h2]

/-- C4 witness: a network failure. -/
theorem c4_fetch_failure_swallowed_witness :
    (get_malaysia_weather_forecast (HttpOutcome.requestError "Connection refused")
      "penang" "2025-08-06" 15).result = none ∧
    (get_malaysia_weather_forecast (HttpOutcome.requestError "Connection refused")
      "penang" "2025-08-06" 15).printed = ["Weather API error: Connection refused"] := by
  have h := c4_fetch_failure_swallowed (HttpOutcome.requestError "Connection refused")
    "penang" "2025-08-06" 15 rfl
  exact ⟨h.1, h.2.trans (by rfl)⟩

/-- C5: every fetcher call issues exactly one GET, to the fixed URL, with the
location lower-cased and stripped, the date verbatim, `category=forecast`,
and the two fixed headers; moreover the transmitted location has no
uppercase letter and no surrounding whitespace. -/
theorem c5_single_request_shape (outcome : HttpOutcome)
    (location date : String) (timeout : Nat) :
    (get_malaysia_weather_forecast outcome location date timeout).requests =
      [{ url := "https://api.data.gov.my/weather"
         params := [("location", pyStrip (pyLower location)), ("date", date),
                    ("category", "forecast")]
         headers := [("User-Agent", "MalaysiaWeatherForecast/1.0"),
                     ("Accept", "application/json")]
         timeout := timeout }] ∧
    (∀ c ∈ (pyStrip (pyLower location)).data, c.isUpper = false) ∧
    (∀ c, (pyStrip (pyLower location)).data.head? = some c → isPySpace c = false) ∧
    (∀ c, (pyStrip (pyLower location)).data.getLast? = some c → isPySpace c = false) := by
  refine ⟨?_, ?_, fun c h => pyStrip_head_not_space h,
    fun c h => pyStrip_getLast_not_space h⟩
  · cases outcome with
    | requestError msg => rfl
    | timedOut msg => rfl
    | response status statusMsg body =>
      cases h2 : is2xx status <;> cases body <;>
        simp [get_malaysia_weather_forecast, build_request, h2]
  · intro c hc
    have hc2 : c ∈ List.map Char.toLower location.data := mem_of_mem_pyStrip hc
    rcases List.mem_map.mp hc2 with ⟨a, _, rfl⟩
    exact toLower_not_upper a

/-- C5 witness: a concrete mixed-case location with surrounding blanks. -/
theorem c5_single_request_shape_witness :
    (get_malaysia_weather_forecast (HttpOutcome.requestError "Connection refused")
      "  KuAlA LumPur " "2025-08-06" 15).requests =
      [{ url := "https://api.data.gov.my/weather"
         params := [("location", "kuala lumpur"), ("date", "2025-08-06"),
                    ("category", "forecast")]
         headers := [("User-Agent", "MalaysiaWeatherForecast/1.0"),
                     ("Accept", "application/json")]
         timeout := 15 }] := by
  have h := (c5_single_request_shape (HttpOutcome.requestError "Connection refused")
    "  KuAlA LumPur " "2025-08-06" 15).1
  exact h.trans (by rfl)

/-- C6: on the success path the title line shows the parsed date as
`DD Mon YYYY` — two-digit zero-padded day, three-letter month abbreviation,
four-digit year — and in particular "2025-08-06" parses and renders as
"06 Aug 2025". -/
theorem c6_title_date_format
    (outcome : HttpOutcome) (location date : String)
    (topFields fields : List (String × JVal)) (rest : List JVal) (y m d : Nat)
    (hfetch : (get_malaysia_weather_forecast outcome location date defaultTimeout).result
      = some (JVal.obj topFields))
    (hdata : List.lookup "data" topFields = some (JVal.arr (JVal.obj fields :: rest)))
    (hdate : strptime_Ymd date = some (y, m, d)) :
    (∃ tail, (format_weather_forecast outcome location date).output =
      Except.ok ((pyTitle location ++ " Weather Forecast (" ++
        (pad2 d ++ " " ++ monthAbbr m ++ " " ++ pad4 y) ++ "):") ++ tail)) ∧
    (pad2 d).length = 2 ∧ (monthAbbr m).length = 3 ∧ (pad4 y).length = 4 ∧
    strptime_Ymd "2025-08-06" = some (2025, 8, 6) ∧
    strftime_dbY 2025 8 6 = "06 Aug 2025" := by
  obtain ⟨hy1, hy2, hm1, hm2, hd1, hd2⟩ := strptime_Ymd_bounds hdate
  refine ⟨?_, rfl, ?_, rfl, by rfl, by rfl⟩
  · refine ⟨"\n" ++
      ("Condition: " ++ pyStr (recGetD fields "weather_condition" (.str "N/A")) ++ "\n" ++
       "Temperature: " ++ pyStr (recGetD fields "temperature_min" (.str "N/A")) ++ "°C - " ++
         pyStr (recGetD fields "temperature_max" (.str "N/A")) ++ "°C\n" ++
       "Humidity: " ++ pyStr (recGetD fields "humidity_min" (.str "N/A")) ++ "% - " ++
         pyStr (recGetD fields "humidity_max" (.str "N/A")) ++ "%\n" ++
       "Wind: " ++ pyStr (recGetD fields "wind_speed" (.str "N/A")) ++ " km/h " ++
         pyStr (recGetD fields "wind_direction" (.str "")) ++ "\n" ++
       "Rain Probability: " ++ pyStr (recGetD fields "rain_probability" (.str "N/A")) ++ "%\n" ++
       "\nSource: Data.gov.my Weather API"), ?_⟩
    rw [format_output_eq, hfetch, render_forecast_of_data _ _ _ _ _ hdata, hdate]
    show Except.ok (forecast_report location y m d fields) = _
    rw [forecast_report_split]
  · interval_cases m <;> rfl

/-- C6 witness: the Penang example instantiation. -/
theorem c6_title_date_format_witness :
    (∃ tail, (format_weather_forecast
        (HttpOutcome.response 200 "OK" (Except.ok penangBody))
        "Penang" "2025-08-06").output =
      Except.ok ((pyTitle "Penang" ++ " Weather Forecast (" ++
        (pad2 6 ++ " " ++ monthAbbr 8 ++ " " ++ pad4 2025) ++ "):") ++ tail)) ∧
    (pad2 6).length = 2 ∧ (monthAbbr 8).length = 3 ∧ (pad4 2025).length = 4 ∧
    strptime_Ymd "2025-08-06" = some (2025, 8, 6) ∧
    strftime_dbY 2025 8 6 = "06 Aug 2025" :=
  c6_title_date_format (HttpOutcome.response 200 "OK" (Except.ok penangBody))
    "Penang" "2025-08-06" [("data", JVal.arr [JVal.obj penangRecord])]
    penangRecord [] 2025 8 6 rfl rfl rfl

/-- C7: the fetcher's timeout default is 15 seconds and the formatter issues
its one request with exactly that default. -/
theorem c7_default_timeout_used (outcome : HttpOutcome) (location date : String) :
    defaultTimeout = 15 ∧
    (format_weather_forecast outcome location date).requests.map
      (fun r => r.timeout) = [defaultTimeout] := by
  refine ⟨rfl, ?_⟩
  cases outcome with
  | requestError msg => rfl
  | timedOut msg => rfl
  | response status statusMsg body =>
    cases h2 : is2xx status <;> cases body <;>
      simp [format_weather_forecast, get_malaysia_weather_forecast,
        build_request, h2]

/-- C7 witness: a concrete call. -/
theorem c7_default_timeout_used_witness :
    defaultTimeout = 15 ∧
    (format_weather_forecast (HttpOutcome.requestError "Connection refused")
      "penang" "2025-08-06").requests.map (fun r => r.timeout) = [defaultTimeout] :=
  c7_default_timeout_used (HttpOutcome.requestError "Connection refused")
    "penang" "2025-08-06"

/-- C8: the formatted report is a deterministic function of the request and
the fetch outcome — equal inputs give identical strings. -/
theorem c8_deterministic (o1 o2 : HttpOutcome) (l1 l2 d1 d2 : String)
    (ho : o1 = o2) (hl : l1 = l2) (hd : d1 = d2) :
    (format_weather_forecast o1 l1 d1).output =
      (format_weather_forecast o2 l2 d2).output := by
  subst ho
  subst hl
  subst hd
  rfl

/-- C8 witness: two identical Penang runs. -/
theorem c8_deterministic_witness :
    (format_weather_forecast (HttpOutcome.response 200 "OK" (Except.ok penangBody))
      "Penang" "2025-08-06").output =
    (format_weather_forecast (HttpOutcome.response 200 "OK" (Except.ok penangBody))
      "Penang" "2025-08-06").output :=
  c8_deterministic _ _ _ _ _ _ rfl rfl rfl

/-- C9: a field present in the first record renders verbatim even when falsy —
`rain_probability` 0 gives "Rain Probability: 0%", an empty `wind_direction`
gives an empty rendering — never "N/A", which is reserved for absent keys. -/
theorem c9_falsy_fields_verbatim
    (outcome : HttpOutcome) (location date : String)
    (topFields fields : List (String × JVal)) (rest : List JVal) (y m d : Nat)
    (hfetch : (get_malaysia_weather_forecast outcome location date defaultTimeout).result
      = some (JVal.obj topFields))
    (hdata : List.lookup "data" topFields = some (JVal.arr (JVal.obj fields :: rest)))
    (hdate : strptime_Ymd date = some (y, m, d))
    (hrain : List.lookup "rain_probability" fields = some (JVal.int 0))
    (hwind : List.lookup "wind_direction" fields = some (JVal.str "")) :
    ((format_weather_forecast outcome location date).output =
      Except.ok (String.intercalate "\n"
        [pyTitle location ++ " Weather Forecast (" ++ strftime_dbY y m d ++ "):",
         "Condition: " ++ spec_field_or_NA fields "weather_condition",
         "Temperature: " ++ spec_field_or_NA fields "temperature_min" ++ "°C - " ++
           spec_field_or_NA fields "temperature_max" ++ "°C",
         "Humidity: " ++ spec_field_or_NA fields "humidity_min" ++ "% - " ++
           spec_field_or_NA fields "humidity_max" ++ "%",
         "Wind: " ++ spec_field_or_NA fields "wind_speed" ++ " km/h ",
         "Rain Probability: 0%",
         "",
         "Source: Data.gov.my Weather API"])) ∧
    ("Rain Probability: 0%" : String) ≠ "Rain Probability: N/A%" := by
  refine ⟨?_, by decide⟩
  rw [format_output_eq, hfetch, render_forecast_of_data _ _ _ _ _ hdata, hdate]
  show Except.ok (forecast_report location y m d fields) = _
  rw [intercalate_eight]
  refine congrArg Except.ok ?_
  apply String.ext
  simp only [spec_field_or_NA_eq, forecast_report, strftime_dbY, recGetD,
    hrain, hwind, Option.getD_some, pyStr, String.data_append,
    List.append_assoc, List.cons_append, List.nil_append]
  rfl

/-- C9 witness: a record holding only the two falsy fields. -/
theorem c9_falsy_fields_verbatim_witness :
    (format_weather_forecast (HttpOutcome.response 200 "OK"
      (Except.ok (JVal.obj [("data", JVal.arr [JVal.obj
        [("rain_probability", JVal.int 0), ("wind_direction", JVal.str "")]])])))
      "penang" "2025-08-06").output =
      Except.ok "Penang Weather Forecast (06 Aug 2025):\nCondition: N/A\nTemperature: N/A°C - N/A°C\nHumidity: N/A% - N/A%\nWind: N/A km/h \nRain Probability: 0%\n\nSource: Data.gov.my Weather API" := by
  have h := (c9_falsy_fields_verbatim (HttpOutcome.response 200 "OK"
    (Except.ok (JVal.obj [("data", JVal.arr [JVal.obj
      [("rain_probability", JVal.int 0), ("wind_direction", JVal.str "")]])])))
    "penang" "2025-08-06"
    [("data", JVal.arr [JVal.obj
      [("rain_probability", JVal.int 0), ("wind_direction", JVal.str "")]])]
    [("rain_probability", JVal.int 0), ("wind_direction", JVal.str "")]
    [] 2025 8 6 rfl rfl rfl rfl rfl).1
  exact h.trans (by rfl)

/-- C10: title-casing rewrites characters in place — every non-letter
(whitespace included) is kept verbatim at its position, a letter is
uppercased exactly when it starts a word — and both the fallback message and
the report's title line embed the title-cased original location. -/
theorem c10_title_whitespace_preserved (location date : String) :
    pyTitle location = String.mk (title_spec_from location.data false) ∧
    pyTitle "  kuala lumpur  " = "  Kuala Lumpur  " ∧
    fallback_message location date =
      "No forecast available for " ++ pyTitle location ++ " on " ++ date ∧
    ∀ (y m d : Nat) (fields : List (String × JVal)), ∃ tail,
      forecast_report location y m d fields = pyTitle location ++ tail := by
  refine ⟨congrArg String.mk (pyTitleAux_eq_spec location.data false), by rfl,
    rfl, ?_⟩
  intro y m d fields
  refine ⟨" Weather Forecast (" ++ strftime_dbY y m d ++ "):\n" ++
    "Condition: " ++ pyStr (recGetD fields "weather_condition" (.str "N/A")) ++ "\n" ++
    "Temperature: " ++ pyStr (recGetD fields "temperature_min" (.str "N/A")) ++ "°C - " ++
      pyStr (recGetD fields "temperature_max" (.str "N/A")) ++ "°C\n" ++
    "Humidity: " ++ pyStr (recGetD fields "humidity_min" (.str "N/A")) ++ "% - " ++
      pyStr (recGetD fields "humidity_max" (.str "N/A")) ++ "%\n" ++
    "Wind: " ++ pyStr (recGetD fields "wind_speed" (.str "N/A")) ++ " km/h " ++
      pyStr (recGetD fields "wind_direction" (.str "")) ++ "\n" ++
    "Rain Probability: " ++ pyStr (recGetD fields "rain_probability" (.str "N/A")) ++ "%\n" ++
    "\nSource: Data.gov.my Weather API", ?_⟩
  apply String.ext
  simp only [forecast_report, String.data_append, List.append_assoc,
    List.cons_append, List.nil_append]

/-- C10 witness: the spaced example. -/
theorem c10_title_whitespace_preserved_witness :
    pyTitle "  kuala lumpur  " = "  Kuala Lumpur  " :=
  (c10_title_whitespace_preserved "  kuala lumpur  " "2025-08-06").2.1

end WeatherTools
